import Mathlib

/-!
Shallow embedding of `src/index.mjs`, the ODHF facility-directory HTTP
service: the lazy CSV loader, the column-alias resolver, the three JSON
handlers and the output normalization.  JS rows (objects) are modelled as
insertion-ordered association lists; a JS value that may be a string, null
or undefined is an `Option String` (`none` covers null and undefined, which
the code treats alike through `|| ""` and `nullish`).
-/

namespace ODHF

/-- A parsed CSV row: a JS object as an insertion-ordered key/value list.
A key mapped to `none` models a null cell; an absent key models undefined. -/
abbrev Record := List (String × Option String)

/-- JS `r[c]`: `none` when the key is absent or the stored value is null. -/
def getCell (r : Record) (c : String) : Option String :=
  match r.find? (fun p => p.1 == c) with
  | none => none
  | some p => p.2

/-- JS `(r[c] || "")`: undefined, null and the empty string all become `""`. -/
def cellStr (r : Record) (c : String) : String :=
  (getCell r c).getD ""

/-- JS `String.prototype.toLowerCase`, per character (ASCII letters). -/
def lowerStr (s : String) : String :=
  String.mk (s.data.map Char.toLower)

/-- Leading-match test on character lists, used to build the substring test. -/
def listStartsWith : List Char → List Char → Bool
  | [], _ => true
  | _ :: _, [] => false
  | a :: as, b :: bs => a == b && listStartsWith as bs

/-- Occurrence of `sub` contiguously inside the second list. -/
def hasSub (sub : List Char) : List Char → Bool
  | [] => listStartsWith sub []
  | c :: rest => listStartsWith sub (c :: rest) || hasSub sub rest

/-- JS `s.includes(sub)`. -/
def jsIncludes (s sub : String) : Bool :=
  hasSub sub.data s.data

/-- Lines 47-55, `findCol`.  The JS builds
`lower = new Map(cols.map(c => [c.toLowerCase(), c]))`; `Map.set`
overwrites, so a lookup returns the LAST column with that lowercase form,
and `if (m)` skips a falsy (empty-string) hit.  The loop tries each
candidate in order: exact membership first, then the lowercase map. -/
def findCol (cols : List String) : List String → Option String
  | [] => none
  | cand :: rest =>
    if cols.contains cand then some cand
    else
      match cols.reverse.find? (fun c => lowerStr c == lowerStr cand) with
      | some m => if m == "" then findCol cols rest else some m
      | none => findCol cols rest

namespace ALIAS_MAP

/-- Lines 58-65 (a JS Set, iterated in insertion order). -/
def province : List String :=
  ["province", "Province", "Province or Territory", "Province/Territory",
   "prov", "province_or_territory"]

/-- Lines 66-72. -/
def odhf_facility_type : List String :=
  ["odhf_facility_type", "ODHF Facility Type", "Facility Type",
   "facility_type", "odhf facility type"]

end ALIAS_MAP

/-- The fixed dataset path, `path.join(__dirname, "odhf_v1.1.csv")` (line 25). -/
def CSV_FILE : String := "odhf_v1.1.csv"

/-- Lines 173-178.  A JS null input also falls through and returns null,
which the Option model folds into `none`. -/
def nullish (v : Option String) : Option String :=
  match v with
  | none => none
  | some s => if s == "" || s == "NaN" || s == "nan" then none else some s

/-- Module-level state `let DATA = null; let COLUMNS = null;` (lines 28-29). -/
structure DatasetState where
  data : Option (List Record)
  columns : Option (List String)
deriving DecidableEq

/-- `records.length ? Object.keys(records[0]) : []` (line 43). -/
def columnsOf (records : List Record) : List String :=
  match records with
  | [] => []
  | r :: _ => r.map Prod.fst

/-- Outcome of one call to `loadCSVOnce` (lines 31-44): the new state, the
message of a thrown read/parse error if any, and whether the file was read. -/
structure LoadResult where
  state : DatasetState
  thrown : Option String
  didRead : Bool
deriving DecidableEq

/-- Lines 31-44.  A JS empty array is truthy, so `if (DATA) return` also
caches a zero-record parse; a throwing `readFile` leaves both variables
null (the exception propagates to the calling handler). -/
def loadCSVOnce (s : DatasetState) (file : Except String (List Record)) : LoadResult :=
  match s.data with
  | some _ => ⟨s, none, false⟩
  | none =>
    match file with
    | .error e => ⟨s, some e, true⟩
    | .ok records => ⟨⟨some records, some (columnsOf records)⟩, none, true⟩

/-- The JSON or text bodies the three handlers can produce. -/
inductive Body where
  | text (s : String)
  | errorJson (msg : String)
  | errorCols (msg : String) (haveCols : List String)
      (needProvince needType : List String)
  | columnsJson (cols : List String)
  | messageJson (msg : String)
  | recordsJson (records : List Record)
deriving DecidableEq

/-- An HTTP response: status code plus body. -/
structure Response where
  status : Nat
  body : Body
deriving DecidableEq

/-- GET `/` (lines 76-88). -/
def healthRoot (s : DatasetState) (file : Except String (List Record)) : Response :=
  let lr := loadCSVOnce s file
  match lr.thrown with
  | some e => ⟨500, .text ("Startup error: " ++ e)⟩
  | none =>
    let rows := match lr.state.data with | some d => d.length | none => 0
    ⟨200, .text ("ODHF MCP Server (Node) is running! csv_found=true rows="
                  ++ toString rows)⟩

/-- GET `/list_fields` (lines 91-103).  `!COLUMNS` is false for the empty
array, so only a never-assigned `COLUMNS` reaches the 400 branch. -/
def listFields (s : DatasetState) (file : Except String (List Record)) : Response :=
  let lr := loadCSVOnce s file
  match lr.thrown with
  | some e => ⟨500, .errorJson e⟩
  | none =>
    match lr.state.columns with
    | none => ⟨400, .errorJson ("CSV not found or empty at " ++ CSV_FILE)⟩
    | some cols => ⟨200, .columnsJson cols⟩

/-- Whitespace characters stripped by JS `String.prototype.trim` (the ASCII
ones; the query strings at issue are ASCII). -/
def isWsChar (c : Char) : Bool :=
  c == ' ' || c == '\t' || c == '\n' || c == '\r' || c == '\x0b' || c == '\x0c'

/-- Drop leading whitespace from a character list. -/
def dropLeadingWs : List Char → List Char
  | [] => []
  | c :: rest => if isWsChar c then dropLeadingWs rest else c :: rest

/-- JS `s.trim()`: strip whitespace from both ends. -/
def jsTrim (s : String) : String :=
  String.mk ((dropLeadingWs (dropLeadingWs s.data).reverse).reverse)

/-- `(req.query.x || "").toString().trim()` (lines 127-128). -/
def trimmedParam (q : Option String) : String :=
  jsTrim (q.getD "")

/-- One `rows.filter` stage guarded by JS truthiness of the filter value
(lines 131-138). -/
def applyFilter (rows : List Record) (col filt : String) : List Record :=
  if filt == "" then rows
  else rows.filter (fun r => jsIncludes (lowerStr (cellStr r col)) (lowerStr filt))

/-- Both filter stages, province then facility type (lines 130-138). -/
def filterRows (data : List Record) (colProvince colType : String)
    (province facilityType : String) : List Record :=
  applyFilter (applyFilter data colProvince province) colType facilityType

/-- Lines 147-155: the preferred projection columns present in the dataset. -/
def preferredCols (columns : List String) (colProvince colType : String) : List String :=
  ["Facility Name", "City", colProvince, colType, "Postal Code", "Latitude",
   "Longitude"].filter (fun c => columns.contains c)

/-- Lines 157-165: one output object of the search response. -/
def projectRecord (columns preferred : List String) (r : Record) : Record :=
  if preferred.isEmpty then columns.map (fun c => (c, nullish (getCell r c)))
  else preferred.map (fun c => (c, nullish (getCell r c)))

/-- JS truthiness of `findCol`'s result in `if (!colProvince || !colType)`. -/
def jsTruthy (v : Option String) : Bool :=
  match v with
  | none => false
  | some s => s != ""

/-- The zero-match informational message (lines 141-144). -/
def noResultsMsg : String :=
  "No results. Try another province (e.g., 'QC'/'Quebec') or facility_type."

/-- GET `/search_facilities` (lines 106-171). -/
def searchFacilities (s : DatasetState) (file : Except String (List Record))
    (qProvince qType : Option String) : Response :=
  let lr := loadCSVOnce s file
  match lr.thrown with
  | some e => ⟨500, .errorJson e⟩
  | none =>
    match lr.state.data, lr.state.columns with
    | some data, some columns =>
      let cpOpt := findCol columns ALIAS_MAP.province
      let ctOpt := findCol columns ALIAS_MAP.odhf_facility_type
      if jsTruthy cpOpt && jsTruthy ctOpt then
        let colProvince := cpOpt.getD ""
        let colType := ctOpt.getD ""
        let rows := filterRows data colProvince colType
                      (trimmedParam qProvince) (trimmedParam qType)
        if rows.isEmpty then ⟨200, .messageJson noResultsMsg⟩
        else
          ⟨200, .recordsJson ((rows.take 25).map
            (projectRecord columns (preferredCols columns colProvince colType)))⟩
      else
        ⟨400, .errorCols "Expected columns not found." columns
          ALIAS_MAP.province ALIAS_MAP.odhf_facility_type⟩
    | _, _ => ⟨400, .errorJson ("CSV not found or empty at " ++ CSV_FILE)⟩

/-- Modelled from the spec: the two-pass resolution rule of claim C2 and
spec section 4.2 — first scan the whole alias set for an alias exactly
matching an actual column; only if none matches exactly, scan again for the
first alias whose lowercase form matches a column, and return that column.
`findCol` above is the code; this definition follows the spec's words, for
comparison. -/
def resolveColumnTwoPass (cols aliases : List String) : Option String :=
  match aliases.find? (fun a => cols.contains a) with
  | some a => some a
  | none =>
    match aliases.find? (fun a => cols.any (fun c => lowerStr c == lowerStr a)) with
    | some a => cols.find? (fun c => lowerStr c == lowerStr a)
    | none => none

/-- What a single candidate alias yields inside `findCol`'s loop. -/
def aliasResolves (cols : List String) (a : String) : Option String :=
  if cols.contains a then some a
  else
    match cols.reverse.find? (fun c => lowerStr c == lowerStr a) with
    | some m => if m == "" then none else some m
    | none => none

/-- The record-level predicate equivalent to the two chained filters. -/
def rowPasses (colProvince colType province facilityType : String) (r : Record) : Bool :=
  (province == "" || jsIncludes (lowerStr (cellStr r colProvince)) (lowerStr province)) &&
  (facilityType == "" || jsIncludes (lowerStr (cellStr r colType)) (lowerStr facilityType))

/-- Concrete column list used to instantiate theorems with hypotheses. -/
def sampleColumns : List String :=
  ["Facility Name", "City", "province", "odhf_facility_type"]

/-- Concrete row builder for the sample dataset. -/
def sampleRow (name city prov ftype : String) : Record :=
  [("Facility Name", some name), ("City", some city), ("province", some prov),
   ("odhf_facility_type", some ftype)]

/-- A two-row sample dataset. -/
def sampleData : List Record :=
  [sampleRow "A" "Montreal" "Quebec" "Hospital",
   sampleRow "B" "Quebec City" "Quebec" "Clinic"]

/-- Forty identical matching rows, for the truncation instance. -/
def manyRows : List Record :=
  List.replicate 40 (sampleRow "A" "Montreal" "Quebec" "Hospital")

/-- A single row whose province cell holds a null value. -/
def nullCellRow : Record := [("province", none)]

/- ===================== Helper lemmas ===================== -/

theorem loadCSVOnce_cached (s : DatasetState) (d : List Record)
    (h : s.data = some d) (file : Except String (List Record)) :
    loadCSVOnce s file = ⟨s, none, false⟩ := by
  unfold loadCSVOnce
  rw [h]

theorem searchFacilities_resolved (data : List Record) (columns : List String)
    (file : Except String (List Record)) (qp qt : Option String) (cp ct : String)
    (hcp : findCol columns ALIAS_MAP.province = some cp)
    (hct : findCol columns ALIAS_MAP.odhf_facility_type = some ct)
    (hcp0 : cp ≠ "") (hct0 : ct ≠ "") :
    searchFacilities ⟨some data, some columns⟩ file qp qt =
      (if (filterRows data cp ct (trimmedParam qp) (trimmedParam qt)).isEmpty then
        ⟨200, .messageJson noResultsMsg⟩
      else
        ⟨200, .recordsJson
          (((filterRows data cp ct (trimmedParam qp) (trimmedParam qt)).take 25).map
            (projectRecord columns (preferredCols columns cp ct)))⟩) := by
  simp [searchFacilities, loadCSVOnce, hcp, hct, jsTruthy, bne_iff_ne, hcp0, hct0]

theorem nullish_eq_none_iff (v : Option String) :
    nullish v = none ↔ v = none ∨ v = some "" ∨ v = some "NaN" ∨ v = some "nan" := by
  match v with
  | none => simp [nullish]
  | some s =>
    simp only [nullish]
    split
    next h =>
      rw [Bool.or_eq_true, Bool.or_eq_true, beq_iff_eq, beq_iff_eq, beq_iff_eq] at h
      constructor
      · intro _
        rcases h with (h1 | h1) | h1 <;> simp [h1]
      · intro _; rfl
    next h =>
      constructor
      · intro hc; exact Option.noConfusion hc
      · intro hc
        exfalso
        rcases hc with hc | hc | hc | hc
        · exact Option.noConfusion hc
        · injection hc with hc; exact h (by simp [hc])
        · injection hc with hc; exact h (by simp [hc])
        · injection hc with hc; exact h (by simp [hc])

/- ===================== Claim theorems ===================== -/

/-- C1 (code_bug evidence): what the code actually does when the dataset is
absent.  When the file parses to zero records, `/list_fields` answers 200
with an empty column list (a JS empty array is truthy, so the 400 branch is
skipped), the root health endpoint answers 200 with `rows=0`, and
`/search_facilities` answers 400 with the "Expected columns not found."
diagnostic rather than the file-path message.  When the file is missing or
unreadable, the read throws and all three endpoints answer 500 — never the
400-with-file-path response the claim describes for the field/search
endpoints. -/
theorem C1_dataset_absent_behavior :
    listFields ⟨none, none⟩ (.ok []) = ⟨200, .columnsJson []⟩ ∧
    healthRoot ⟨none, none⟩ (.ok []) =
      ⟨200, .text "ODHF MCP Server (Node) is running! csv_found=true rows=0"⟩ ∧
    searchFacilities ⟨none, none⟩ (.ok []) none none =
      ⟨400, .errorCols "Expected columns not found." []
        ALIAS_MAP.province ALIAS_MAP.odhf_facility_type⟩ ∧
    listFields ⟨none, none⟩ (.error "ENOENT: no such file or directory") =
      ⟨500, .errorJson "ENOENT: no such file or directory"⟩ ∧
    searchFacilities ⟨none, none⟩ (.error "ENOENT: no such file or directory") none none =
      ⟨500, .errorJson "ENOENT: no such file or directory"⟩ ∧
    healthRoot ⟨none, none⟩ (.error "ENOENT: no such file or directory") =
      ⟨500, .text "Startup error: ENOENT: no such file or directory"⟩ := by
  decide

/-- C2 (counterexample): with actual columns `["PROVINCE", "Province or
Territory"]`, the alias `"Province or Territory"` of the province alias set
matches a column exactly, yet `findCol` returns the case-insensitive match
`"PROVINCE"` found for the earlier alias `"province"` — so an exact case
match elsewhere in the alias set is NOT preferred over an earlier
case-insensitive match, contradicting the claim (whose two-pass reading is
`resolveColumnTwoPass`). -/
theorem C2_counterexample :
    "Province or Territory" ∈ ALIAS_MAP.province ∧
    "Province or Territory" ∈ ["PROVINCE", "Province or Territory"] ∧
    findCol ["PROVINCE", "Province or Territory"] ALIAS_MAP.province = some "PROVINCE" ∧
    resolveColumnTwoPass ["PROVINCE", "Province or Territory"] ALIAS_MAP.province =
      some "Province or Territory" ∧
    findCol ["PROVINCE", "Province or Territory"] ALIAS_MAP.province ≠
      resolveColumnTwoPass ["PROVINCE", "Province or Territory"] ALIAS_MAP.province := by
  decide

/-- C2 (amended): column resolution iterates the alias set in its fixed
insertion order and, for each alias IN TURN, returns the alias itself if it
exactly matches an actual column, otherwise the last actual column whose
lowercase form equals the alias's lowercase form (skipping an empty-string
hit); only when an alias matches neither way does it move on to the next
alias, and it returns none when none matches.  So resolution is the first
per-alias match, not exact-anywhere-first. -/
theorem C2_per_alias_first_match (cols aliases : List String) :
    findCol cols aliases = aliases.findSome? (aliasResolves cols) := by
  induction aliases with
  | nil => rfl
  | cons a rest ih =>
    simp only [findCol, List.findSome?, aliasResolves]
    by_cases h : a ∈ cols
    · simp [h]
    · simp only [List.elem_eq_mem, h, decide_False, Bool.false_eq_true, if_false]
      cases hm : cols.reverse.find? (fun c => lowerStr c == lowerStr a) with
      | none => simpa using ih
      | some m =>
        by_cases hm0 : m = ""
        · simpa [hm0] using ih
        · simp [hm0]

/-- C4: a cell value emitted by the search endpoint is null exactly when the
stored value is absent (undefined or null), the empty string, the exact
text "NaN", or the exact lowercase text "nan"; every other value — the
mixed-case "Nan" included — passes through unchanged, and every value in an
output object is `nullish` of the corresponding stored cell. -/
theorem C4_null_normalization :
    (∀ v : Option String,
      (nullish v = none ↔ v = none ∨ v = some "" ∨ v = some "NaN" ∨ v = some "nan")) ∧
    (∀ s : String, s ≠ "" → s ≠ "NaN" → s ≠ "nan" → nullish (some s) = some s) ∧
    nullish (some "Nan") = some "Nan" ∧
    (∀ (cols pref : List String) (r : Record) (c : String) (val : Option String),
      (c, val) ∈ projectRecord cols pref r → val = nullish (getCell r c)) := by
  refine ⟨nullish_eq_none_iff, ?_, by decide, ?_⟩
  · intro s h1 h2 h3
    simp [nullish, h1, h2, h3]
  · intro cols pref r c val hmem
    simp only [projectRecord] at hmem
    split at hmem <;>
    · obtain ⟨c', -, hc⟩ := List.mem_map.mp hmem
      injection hc with hk hv
      subst hk
      exact hv.symm

/-- C4 witness: a non-sentinel value passes through, and an output pair of a
projected record carries `nullish` of the stored cell. -/
theorem C4_null_normalization_witness :
    nullish (some "Qc") = some "Qc" ∧
    some "Quebec" =
      nullish (getCell (sampleRow "A" "Montreal" "Quebec" "Hospital") "province") :=
  ⟨C4_null_normalization.2.1 "Qc" (by decide) (by decide) (by decide),
   C4_null_normalization.2.2.2 sampleColumns ["province"]
     (sampleRow "A" "Montreal" "Quebec" "Hospital") "province" (some "Quebec")
     (by decide)⟩

/-- C7: on a loaded dataset whose two logical columns resolve, a search
matching zero records is a success: HTTP 200 with a single message object
suggesting alternate inputs — not an error status and not an empty array. -/
theorem C7_zero_matches (data : List Record) (columns : List String)
    (file : Except String (List Record)) (qp qt : Option String) (cp ct : String)
    (hcp : findCol columns ALIAS_MAP.province = some cp)
    (hct : findCol columns ALIAS_MAP.odhf_facility_type = some ct)
    (hcp0 : cp ≠ "") (hct0 : ct ≠ "")
    (hz : filterRows data cp ct (trimmedParam qp) (trimmedParam qt) = []) :
    searchFacilities ⟨some data, some columns⟩ file qp qt =
      ⟨200, .messageJson noResultsMsg⟩ := by
  rw [searchFacilities_resolved data columns file qp qt cp ct hcp hct hcp0 hct0, hz]
  rfl

/-- C7 witness: a concrete filter matching nothing yields the 200 message
response. -/
theorem C7_zero_matches_witness :
    searchFacilities ⟨some sampleData, some sampleColumns⟩ (.ok []) (some "zz") none =
      ⟨200, .messageJson noResultsMsg⟩ :=
  C7_zero_matches sampleData sampleColumns (.ok []) (some "zz") none
    "province" "odhf_facility_type" (by decide) (by decide) (by decide) (by decide)
    (by decide)

/-- C8: once a load has completed (the cached data is non-null), a further
call to the loader returns the state unchanged without reading the file,
and every data-dependent endpoint gives the same response no matter what
the file would now contain — N calls observe the same row count and column
list. -/
theorem C8_load_at_most_once (s : DatasetState) (d : List Record)
    (h : s.data = some d) (f f' : Except String (List Record)) (qp qt : Option String) :
    loadCSVOnce s f = ⟨s, none, false⟩ ∧
    (loadCSVOnce s f).didRead = false ∧
    healthRoot s f = healthRoot s f' ∧
    listFields s f = listFields s f' ∧
    searchFacilities s f qp qt = searchFacilities s f' qp qt := by
  have hl : ∀ g, loadCSVOnce s g = ⟨s, none, false⟩ := fun g => loadCSVOnce_cached s d h g
  refine ⟨hl f, by rw [hl f], ?_, ?_, ?_⟩
  · simp only [healthRoot, hl]
  · simp only [listFields, hl]
  · simp only [searchFacilities, hl]

/-- C8 witness: on a concrete loaded state, the loader is a no-op that does
not read, and responses do not depend on the file any more. -/
theorem C8_load_at_most_once_witness :
    loadCSVOnce ⟨some sampleData, some sampleColumns⟩ (.error "gone") =
      ⟨⟨some sampleData, some sampleColumns⟩, none, false⟩ ∧
    (loadCSVOnce ⟨some sampleData, some sampleColumns⟩ (.error "gone")).didRead = false ∧
    healthRoot ⟨some sampleData, some sampleColumns⟩ (.error "gone") =
      healthRoot ⟨some sampleData, some sampleColumns⟩ (.ok []) ∧
    listFields ⟨some sampleData, some sampleColumns⟩ (.error "gone") =
      listFields ⟨some sampleData, some sampleColumns⟩ (.ok []) ∧
    searchFacilities ⟨some sampleData, some sampleColumns⟩ (.error "gone") none none =
      searchFacilities ⟨some sampleData, some sampleColumns⟩ (.ok []) none none :=
  C8_load_at_most_once ⟨some sampleData, some sampleColumns⟩ sampleData rfl
    (.error "gone") (.ok []) none none

/- ============ Helpers for the filtering and projection claims ============ -/

theorem applyFilter_eq (rows : List Record) (col filt : String) :
    applyFilter rows col filt =
      rows.filter
        (fun r => filt == "" || jsIncludes (lowerStr (cellStr r col)) (lowerStr filt)) := by
  by_cases h : filt = ""
  · simp [applyFilter, h]
  · have hb : (filt == "") = false := beq_eq_false_iff_ne.mpr h
    simp [applyFilter, h, hb]

theorem filterRows_eq_filter (data : List Record) (cp ct p f : String) :
    filterRows data cp ct p f = data.filter (rowPasses cp ct p f) := by
  rw [filterRows, applyFilter_eq, applyFilter_eq, List.filter_filter]
  exact List.filter_congr (fun r _ => Bool.and_comm _ _)

theorem projectRecord_keys (columns pref : List String) (r : Record) :
    (projectRecord columns pref r).map Prod.fst =
      if pref.isEmpty then columns else pref := by
  have hmap : ∀ l : List String,
      (l.map (fun c => (c, nullish (getCell r c)))).map Prod.fst = l := by
    intro l
    induction l with
    | nil => rfl
    | cons a l ih => simp [ih]
  unfold projectRecord
  split <;> simp [hmap]

theorem findCol_mem (cols cands : List String) (c : String)
    (h : findCol cols cands = some c) : c ∈ cols := by
  induction cands with
  | nil => simp [findCol] at h
  | cons a rest ih =>
    rw [findCol] at h
    split at h
    next hc =>
      injection h with h
      subst h
      simpa using hc
    next =>
      split at h
      next m hm =>
        split at h
        · exact ih h
        · injection h with h
          subst h
          exact List.mem_reverse.mp (List.mem_of_find?_eq_some hm)
      next hm => exact ih h

theorem eq_empty_of_data_eq_nil (s : String) (h : s.data = []) : s = "" := by
  cases s with
  | mk d => cases h; rfl

theorem jsIncludes_empty_false (sub : String) (h : sub ≠ "") :
    jsIncludes "" sub = false := by
  cases hd : sub.data with
  | nil => exact absurd (eq_empty_of_data_eq_nil sub hd) h
  | cons a l =>
    show hasSub sub.data [] = false
    rw [hd]
    rfl

theorem lowerStr_ne_empty (s : String) (h : s ≠ "") : lowerStr s ≠ "" := by
  intro hl
  apply h
  apply eq_empty_of_data_eq_nil
  have : (lowerStr s).data = s.data.map Char.toLower := rfl
  rw [hl] at this
  exact List.map_eq_nil_iff.mp this.symm

theorem searchFacilities_nonempty_eq (data : List Record) (columns : List String)
    (file : Except String (List Record)) (qp qt : Option String) (cp ct : String)
    (hcp : findCol columns ALIAS_MAP.province = some cp)
    (hct : findCol columns ALIAS_MAP.odhf_facility_type = some ct)
    (hcp0 : cp ≠ "") (hct0 : ct ≠ "")
    (hne : filterRows data cp ct (trimmedParam qp) (trimmedParam qt) ≠ []) :
    searchFacilities ⟨some data, some columns⟩ file qp qt =
      ⟨200, .recordsJson
        (((filterRows data cp ct (trimmedParam qp) (trimmedParam qt)).take 25).map
          (projectRecord columns (preferredCols columns cp ct)))⟩ := by
  rw [searchFacilities_resolved data columns file qp qt cp ct hcp hct hcp0 hct0,
    if_neg (by simpa using hne)]

/-- C3: both query parameters are trimmed; the two sequential filter passes
equal one conjunctive filter by `rowPasses`, which demands each non-empty
filter value to occur case-insensitively in the resolved column's cell and
imposes no constraint for an empty value; with both values empty the
dataset passes through unfiltered; membership in the filtered rows is
exactly membership in the data plus passing both filters. -/
theorem C3_trim_and_conjunctive_filter (data : List Record) (cp ct : String)
    (qp qt : Option String) (r : Record) :
    filterRows data cp ct (trimmedParam qp) (trimmedParam qt) =
      data.filter (rowPasses cp ct (trimmedParam qp) (trimmedParam qt)) ∧
    trimmedParam qp = jsTrim (qp.getD "") ∧
    rowPasses cp ct (trimmedParam qp) (trimmedParam qt) r =
      (rowPasses cp ct (trimmedParam qp) "" r && rowPasses cp ct "" (trimmedParam qt) r) ∧
    rowPasses cp ct "" "" r = true ∧
    filterRows data cp ct "" "" = data ∧
    (r ∈ filterRows data cp ct (trimmedParam qp) (trimmedParam qt) ↔
      r ∈ data ∧ rowPasses cp ct (trimmedParam qp) (trimmedParam qt) r = true) := by
  refine ⟨filterRows_eq_filter data cp ct _ _, rfl, ?_, ?_, ?_, ?_⟩
  · simp [rowPasses]
  · simp [rowPasses]
  · simp [filterRows, applyFilter]
  · rw [filterRows_eq_filter]
    exact List.mem_filter

/-- C5: with the dataset loaded, both logical columns resolved and at least
one record matching, the search response is HTTP 200 carrying exactly the
projections of the first 25 matching records in original dataset order
(`List.take` preserves order), and the number of emitted records is
min(25, number of matches). -/
theorem C5_truncation (data : List Record) (columns : List String)
    (file : Except String (List Record)) (qp qt : Option String) (cp ct : String)
    (hcp : findCol columns ALIAS_MAP.province = some cp)
    (hct : findCol columns ALIAS_MAP.odhf_facility_type = some ct)
    (hcp0 : cp ≠ "") (hct0 : ct ≠ "")
    (hne : filterRows data cp ct (trimmedParam qp) (trimmedParam qt) ≠ []) :
    searchFacilities ⟨some data, some columns⟩ file qp qt =
      ⟨200, .recordsJson
        (((filterRows data cp ct (trimmedParam qp) (trimmedParam qt)).take 25).map
          (projectRecord columns (preferredCols columns cp ct)))⟩ ∧
    ((filterRows data cp ct (trimmedParam qp) (trimmedParam qt)).take 25).length =
      min 25 (filterRows data cp ct (trimmedParam qp) (trimmedParam qt)).length :=
  ⟨searchFacilities_nonempty_eq data columns file qp qt cp ct hcp hct hcp0 hct0 hne,
   List.length_take 25 _⟩

/-- C5 witness: forty matching rows and empty filters give the first 25
projections; min(25, 40) = 25. -/
theorem C5_truncation_witness :
    searchFacilities ⟨some manyRows, some sampleColumns⟩ (.ok []) none none =
      ⟨200, .recordsJson
        (((filterRows manyRows "province" "odhf_facility_type" (trimmedParam none)
            (trimmedParam none)).take 25).map
          (projectRecord sampleColumns
            (preferredCols sampleColumns "province" "odhf_facility_type")))⟩ ∧
    ((filterRows manyRows "province" "odhf_facility_type" (trimmedParam none)
        (trimmedParam none)).take 25).length =
      min 25 (filterRows manyRows "province" "odhf_facility_type" (trimmedParam none)
        (trimmedParam none)).length ∧
    (filterRows manyRows "province" "odhf_facility_type" (trimmedParam none)
        (trimmedParam none)).length = 40 ∧
    min 25 40 = 25 :=
  ⟨(C5_truncation manyRows sampleColumns (.ok []) none none "province"
      "odhf_facility_type" (by decide) (by decide) (by decide) (by decide) (by decide)).1,
   (C5_truncation manyRows sampleColumns (.ok []) none none "province"
      "odhf_facility_type" (by decide) (by decide) (by decide) (by decide) (by decide)).2,
   by decide, by decide⟩

/-- C6: in a non-empty search response, each emitted object's fields are the
preferred-column list when it is non-empty and all original columns
otherwise; the preferred list holds exactly the members of the priority
list `Facility Name, City, resolved province, resolved type, Postal Code,
Latitude, Longitude` that occur among the actual columns, and it is a
sublist of that priority list, hence in its fixed relative order. -/
theorem C6_preferred_projection (data : List Record) (columns : List String)
    (file : Except String (List Record)) (qp qt : Option String) (cp ct : String)
    (hcp : findCol columns ALIAS_MAP.province = some cp)
    (hct : findCol columns ALIAS_MAP.odhf_facility_type = some ct)
    (hcp0 : cp ≠ "") (hct0 : ct ≠ "")
    (hne : filterRows data cp ct (trimmedParam qp) (trimmedParam qt) ≠ []) :
    searchFacilities ⟨some data, some columns⟩ file qp qt =
      ⟨200, .recordsJson
        (((filterRows data cp ct (trimmedParam qp) (trimmedParam qt)).take 25).map
          (projectRecord columns (preferredCols columns cp ct)))⟩ ∧
    (∀ r : Record, (projectRecord columns (preferredCols columns cp ct) r).map Prod.fst =
      if (preferredCols columns cp ct).isEmpty then columns
      else preferredCols columns cp ct) ∧
    (∀ c : String, c ∈ preferredCols columns cp ct ↔
      (c ∈ ["Facility Name", "City", cp, ct, "Postal Code", "Latitude", "Longitude"] ∧
        c ∈ columns)) ∧
    List.Sublist (preferredCols columns cp ct)
      ["Facility Name", "City", cp, ct, "Postal Code", "Latitude", "Longitude"] := by
  refine ⟨searchFacilities_nonempty_eq data columns file qp qt cp ct hcp hct hcp0 hct0 hne,
    fun r => projectRecord_keys columns _ r, ?_, List.filter_sublist _⟩
  intro c
  simp [preferredCols, List.mem_filter]

/-- C6 witness: on the sample dataset the emitted key list is the non-empty
preferred list, whose membership and order facts hold concretely. -/
theorem C6_preferred_projection_witness :
    (projectRecord sampleColumns
        (preferredCols sampleColumns "province" "odhf_facility_type")
        (sampleRow "A" "Montreal" "Quebec" "Hospital")).map Prod.fst =
      (if (preferredCols sampleColumns "province" "odhf_facility_type").isEmpty
        then sampleColumns
        else preferredCols sampleColumns "province" "odhf_facility_type") ∧
    ("City" ∈ preferredCols sampleColumns "province" "odhf_facility_type" ↔
      ("City" ∈ ["Facility Name", "City", "province", "odhf_facility_type", "Postal Code",
          "Latitude", "Longitude"] ∧ "City" ∈ sampleColumns)) ∧
    List.Sublist (preferredCols sampleColumns "province" "odhf_facility_type")
      ["Facility Name", "City", "province", "odhf_facility_type", "Postal Code",
        "Latitude", "Longitude"] :=
  ⟨(C6_preferred_projection sampleData sampleColumns (.ok []) none none "province"
      "odhf_facility_type" (by decide) (by decide) (by decide) (by decide)
      (by decide)).2.1 (sampleRow "A" "Montreal" "Quebec" "Hospital"),
   (C6_preferred_projection sampleData sampleColumns (.ok []) none none "province"
      "odhf_facility_type" (by decide) (by decide) (by decide) (by decide)
      (by decide)).2.2.1 "City",
   (C6_preferred_projection sampleData sampleColumns (.ok []) none none "province"
      "odhf_facility_type" (by decide) (by decide) (by decide) (by decide)
      (by decide)).2.2.2⟩

/-- C9: whenever `findCol` returns a column, that column is an element of
the actual column list; hence once both logical columns resolve, the
preferred projection list contains both resolved columns and is non-empty,
so the all-original-columns fallback branch of the projection is never
taken (the projection always maps over the preferred list). -/
theorem C9_resolution_safety :
    (∀ (cols cands : List String) (c : String), findCol cols cands = some c → c ∈ cols) ∧
    (∀ (columns : List String) (cp ct : String), cp ∈ columns → ct ∈ columns →
      (preferredCols columns cp ct).isEmpty = false ∧
      cp ∈ preferredCols columns cp ct ∧ ct ∈ preferredCols columns cp ct) ∧
    (∀ (columns pref : List String) (r : Record), pref.isEmpty = false →
      projectRecord columns pref r = pref.map (fun c => (c, nullish (getCell r c)))) := by
  refine ⟨findCol_mem, ?_, ?_⟩
  · intro columns cp ct h1 h2
    have hcp : cp ∈ preferredCols columns cp ct := by
      simp [preferredCols, List.mem_filter, h1]
    have hct2 : ct ∈ preferredCols columns cp ct := by
      simp [preferredCols, List.mem_filter, h2]
    refine ⟨?_, hcp, hct2⟩
    cases hq : (preferredCols columns cp ct).isEmpty with
    | false => rfl
    | true => exact absurd hcp (by simp [(by simpa using hq :
        preferredCols columns cp ct = [])])
  · intro columns pref r h
    rw [projectRecord, if_neg (by simp [h])]

/-- C9 witness: a resolved column is among the actual columns, the
preferred list is non-empty and contains both resolved columns, and the
projection takes the preferred branch. -/
theorem C9_resolution_safety_witness :
    "province" ∈ sampleColumns ∧
    ((preferredCols sampleColumns "province" "odhf_facility_type").isEmpty = false ∧
      "province" ∈ preferredCols sampleColumns "province" "odhf_facility_type" ∧
      "odhf_facility_type" ∈ preferredCols sampleColumns "province" "odhf_facility_type") ∧
    projectRecord sampleColumns ["province"] nullCellRow =
      (["province"] : List String).map (fun c => (c, nullish (getCell nullCellRow c))) :=
  ⟨C9_resolution_safety.1 sampleColumns ALIAS_MAP.province "province" (by decide),
   C9_resolution_safety.2.1 sampleColumns "province" "odhf_facility_type"
     (by decide) (by decide),
   C9_resolution_safety.2.2 sampleColumns ["province"] nullCellRow (by decide)⟩

/-- C10: a record whose resolved cell is null, undefined or missing is read
as the empty string by the filter: any non-empty filter value excludes it,
and an empty filter value keeps it. -/
theorem C10_missing_cell_filtering (r : Record) (col filt : String)
    (hc : getCell r col = none) :
    cellStr r col = "" ∧
    (filt ≠ "" → applyFilter [r] col filt = []) ∧
    applyFilter [r] col "" = [r] := by
  have hcs : cellStr r col = "" := by rw [cellStr, hc]; rfl
  refine ⟨hcs, ?_, by simp [applyFilter]⟩
  intro hf
  have hinc : jsIncludes (lowerStr (cellStr r col)) (lowerStr filt) = false := by
    rw [hcs]
    show jsIncludes "" (lowerStr filt) = false
    exact jsIncludes_empty_false (lowerStr filt) (lowerStr_ne_empty filt hf)
  rw [applyFilter, if_neg (by simpa using hf)]
  simp [List.filter, hinc]

/-- C10 witness: a row whose province cell is null is excluded by the
filter value "qc" and kept by the empty filter value. -/
theorem C10_missing_cell_filtering_witness :
    cellStr nullCellRow "province" = "" ∧
    applyFilter [nullCellRow] "province" "qc" = [] ∧
    applyFilter [nullCellRow] "province" "" = [nullCellRow] :=
  ⟨(C10_missing_cell_filtering nullCellRow "province" "qc" (by decide)).1,
   (C10_missing_cell_filtering nullCellRow "province" "qc" (by decide)).2.1 (by decide),
   (C10_missing_cell_filtering nullCellRow "province" "qc" (by decide)).2.2⟩

end ODHF
